import Mathlib

/-!
Shallow embedding of the authorization core of the monter_web_backend
repository (FastAPI + SQLAlchemy).  Tables are modelled as Lists of
records, SQL filters as Boolean row predicates, HTTP exception raises as
an `Except` error value.  Python truthiness (`if x:` on optional ints and
strings, where `0`, `""` and `None` are falsy) is modelled explicitly by
`truthyNat` / `truthyStr`.  Wall-clock time is seconds since local
midnight.  Timestamp bookkeeping columns (`created_at`, `updated_at`)
that no modelled behaviour reads are omitted, except the settlement
`created_at` used by the ORDER BY in the settlement list endpoint.
-/

namespace MonterBackend

/-- A row of the `users_admin` table (src/models.py, class UsersAdmin).
The `ad_count`/`active_ad_count` statistics columns and timestamps are
omitted: no modelled code path reads them. -/
structure Account where
  user_id : Nat
  username : String
  role : String
  parent_user_id : Option Nat := none
  affiliation : Option String := none
  memo : Option String := none
  password_hash : String := ""
  is_active : Bool := true
deriving Repr, DecidableEq

/-- A row of the `advertisements_admin` table (src/models.py,
class AdvertisementsAdmin), restricted to the columns the modelled
authorization/settlement paths read. -/
structure Ad where
  ad_id : Nat
  user_id : Nat
  status : String := "pending"
deriving Repr, DecidableEq

/-- A row of the `settlement_admin` table (src/models.py,
class SettlementAdmin).  Dates are day numbers (Int, so that Python date
subtraction is plain subtraction); `created_at` is the insertion clock
used by the list endpoint ORDER BY. -/
structure Settlement where
  settlement_id : Nat
  settlement_type : String
  agency_user_id : Option Nat := none
  advertiser_user_id : Option Nat := none
  ad_id : Option Nat := none
  quantity : Int := 1
  period_start : Int := 0
  period_end : Int := 0
  total_days : Int := 0
  start_date : Option Int := none
  created_at : Nat := 0
deriving Repr, DecidableEq

/-- The per-request caller identity `(user_id, username, role)` that the
session layer (utils/session.py) supplies to every handler as
`current_user`. -/
structure Identity where
  user_id : Nat
  username : String
  role : String
deriving Repr, DecidableEq

/-- An HTTPException as raised by the routers: status code class plus the
(Korean) detail string from the source. -/
inductive ApiError where
  | notFound (detail : String)
  | forbidden (detail : String)
  | badRequest (detail : String)
deriving Repr, DecidableEq

/-- Detail string of the stale-identity rejection
(src/api/routers/accounts.py line 165). -/
def staleIdentityDetail : String := "권한 정보가 일치하지 않습니다. 다시 로그인해주세요."

/-- Detail string of the unknown-role rejection
(src/api/routers/accounts.py line 206). -/
def noPermissionDetail : String := "권한이 없습니다."

/-- Detail string of the 16:30 cutoff rejection
(src/utils/time_check.py line 39). -/
def timeGateDetail : String := "오후 4시 30분 이후에는 수정 작업을 할 수 없습니다."

/-- Detail string of the missing-caller-account rejection
(src/api/routers/accounts.py line 155). -/
def userNotFoundDetail : String := "사용자 정보를 찾을 수 없습니다."

/-- Python truthiness of an optional integer: None and 0 are falsy. -/
def truthyNat : Option Nat → Bool
  | some n => n != 0
  | none => false

/-- Python truthiness of an optional string: None and the empty string
are falsy. -/
def truthyStr : Option String → Bool
  | some s => s != ""
  | none => false

/-- SELECT ... WHERE username = u LIMIT 1 over users_admin. -/
def find_by_username (db : List Account) (u : String) : Option Account :=
  db.find? (fun a => a.username == u)

/-- SELECT ... WHERE user_id = i LIMIT 1 over users_admin. -/
def find_by_user_id (db : List Account) (i : Nat) : Option Account :=
  db.find? (fun a => a.user_id == i)

/-- The ids of the direct agency children of `pid`: the query
`filter(parent_user_id == pid, role == "agency")` shared by both
permission filters and both ownership checks. -/
def agency_children_ids (db : List Account) (pid : Nat) : List Nat :=
  (db.filter (fun a => a.parent_user_id == some pid && a.role == "agency")).map
    (fun a => a.user_id)

/-- SUPERUSER_USERNAMES from src/utils/time_check.py line 9
(note: the set spells "monteur", while the router allow-lists spell
"monter"). -/
def SUPERUSER_USERNAMES : List String := ["admin", "monteur"]

/-- The 16:30 cutoff, in seconds since local midnight. -/
def editCutoffSec : Nat := 16 * 3600 + 30 * 60

/-- check_edit_time_allowed from src/utils/time_check.py: returns the
HTTPException it raises, if any.  Both arguments default to None in the
source; `if username` is Python truthiness. -/
def check_edit_time_allowed (username : Option String) (user_role : Option String)
    (nowSec : Nat) : Option ApiError :=
  if (match username with
      | some u => (u != "") && SUPERUSER_USERNAMES.contains u
      | none => false) then
    none
  else if user_role == some "admin" then
    none
  else if editCutoffSec ≤ nowSec then
    some (.forbidden timeGateDetail)
  else
    none

/-- The superuser test performed by check_edit_time_allowed (its two
early returns combined). -/
def is_time_gate_superuser (username : Option String) (user_role : Option String) : Bool :=
  (match username with
   | some u => (u != "") && SUPERUSER_USERNAMES.contains u
   | none => false) || (user_role == some "admin")

/-- _apply_account_permission_filter from src/api/routers/accounts.py
lines 134-207, returning the SQL row predicate it ANDs onto the query
(or the HTTPException it raises).  The `filter_conditions` list mirrors
the source: the agency containment condition is appended only when the
agency id set is nonempty. -/
def apply_account_permission_filter (current : Identity) (db : List Account) :
    Except ApiError (Account → Bool) :=
  if ["admin", "monter"].contains current.username then
    .ok (fun _ => true)
  else
    match find_by_username db current.username with
    | none => .error (.notFound userNotFoundDetail)
    | some actual =>
      if actual.role != current.role then
        .error (.forbidden staleIdentityDetail)
      else if actual.role == "total" then
        let agency_ids := agency_children_ids db actual.user_id
        let filter_conditions : List (Account → Bool) :=
          [fun a => a.user_id == actual.user_id,
           fun a => a.parent_user_id == some actual.user_id] ++
          (if agency_ids.isEmpty then []
           else [fun a =>
             match a.parent_user_id with
             | some p => agency_ids.contains p
             | none => false])
        .ok (fun a => filter_conditions.any (fun c => c a))
      else if actual.role == "agency" then
        .ok (fun a =>
          a.user_id == actual.user_id ||
          (a.parent_user_id == some actual.user_id && a.role == "advertiser"))
      else if actual.role == "advertiser" then
        .ok (fun a => a.user_id == actual.user_id)
      else
        .error (.forbidden noPermissionDetail)

/-- GET /accounts restricted to its permission filtering stage: the rows
of users_admin the caller may list (search filters and pagination of the
endpoint are orthogonal to the claims). -/
def get_accounts_visible (current : Identity) (db : List Account) :
    Except ApiError (List Account) :=
  match apply_account_permission_filter current db with
  | .error e => .error e
  | .ok cond => .ok (db.filter cond)

/-- _apply_advertisement_permission_filter from
src/api/routers/advertisements.py lines 55-111.  The query joins each ad
with its owning users_admin row, so the predicate ranges over (ad, owner)
pairs.  Unlike the account filter it uses the session user_id and role
directly, with no directory re-fetch. -/
def apply_advertisement_permission_filter (current : Identity) (db : List Account) :
    Except ApiError (Ad → Account → Bool) :=
  if ["admin", "monter"].contains current.username then
    .ok (fun _ _ => true)
  else if current.role == "total" then
    let agency_ids := agency_children_ids db current.user_id
    let filter_conditions : List (Ad → Account → Bool) :=
      [fun ad _ => ad.user_id == current.user_id,
       fun _ owner => owner.parent_user_id == some current.user_id] ++
      (if agency_ids.isEmpty then []
       else [fun _ owner =>
         match owner.parent_user_id with
         | some p => agency_ids.contains p
         | none => false])
    .ok (fun ad owner => filter_conditions.any (fun c => c ad owner))
  else if current.role == "agency" then
    .ok (fun ad owner =>
      ad.user_id == current.user_id ||
      (owner.parent_user_id == some current.user_id && owner.role == "advertiser"))
  else if current.role == "advertiser" then
    .ok (fun ad _ => ad.user_id == current.user_id)
  else
    .error (.forbidden noPermissionDetail)

/-- _check_account_access_permission from src/api/routers/accounts.py
lines 210-272: the single-account ownership check used by the /detail
endpoint. -/
def check_account_access_permission (account : Account) (current : Identity)
    (db : List Account) : Bool :=
  if ["admin", "monter"].contains current.username then
    true
  else
    match find_by_username db current.username with
    | none => false
    | some actual =>
      if actual.role != current.role then
        false
      else if actual.role == "total" then
        if account.user_id == actual.user_id then true
        else if account.parent_user_id == some actual.user_id then true
        else
          let agency_ids := agency_children_ids db actual.user_id
          match account.parent_user_id with
          | some p => agency_ids.contains p
          | none => false
      else if actual.role == "agency" then
        if account.user_id == actual.user_id then true
        else account.parent_user_id == some actual.user_id && account.role == "advertiser"
      else if actual.role == "advertiser" then
        account.user_id == actual.user_id
      else
        false

/-- _check_advertisement_ownership from src/api/routers/advertisements.py
lines 114-169: the ownership check used by advertisement update, delete
and extend.  It uses the session user_id and role directly (no directory
re-fetch of the caller) but fetches the owning account of the ad. -/
def check_advertisement_ownership (ad : Ad) (current : Identity)
    (db : List Account) : Bool :=
  if ["admin", "monter"].contains current.username then
    true
  else
    match find_by_user_id db ad.user_id with
    | none => false
    | some advertiser =>
      if ad.user_id == current.user_id then true
      else if current.role == "total" then
        if advertiser.parent_user_id == some current.user_id && advertiser.role == "agency" then
          true
        else
          let agency_ids := agency_children_ids db current.user_id
          (match advertiser.parent_user_id with
           | some p => agency_ids.contains p
           | none => false) && advertiser.role == "advertiser"
      else if current.role == "agency" then
        advertiser.parent_user_id == some current.user_id && advertiser.role == "advertiser"
      else if current.role == "advertiser" then
        ad.user_id == current.user_id
      else
        false

/-- The query-string arguments of GET /settlements (src/api/routers/
settlements.py lines 38-47), with their FastAPI defaults. -/
structure SettlementQuery where
  page : Nat := 1
  limit : Nat := 50
  start_date : Option Int := none
  end_date : Option Int := none
  settlement_type : Option String := none
  agency_user_id : Option Nat := none
  advertiser_user_id : Option Nat := none
deriving Repr, DecidableEq

/-- The WHERE clause built by GET /settlements (lines 62-78).  A date
argument is compared against the nullable start_date of the row (SQL NULL
comparisons are false); `if settlement_type:` and the id filters are
Python truthiness, so an empty string or 0 skips the filter. -/
def settlement_matches (q : SettlementQuery) (s : Settlement) : Bool :=
  (match q.start_date with
   | some d => (match s.start_date with
     | some sd => d ≤ sd
     | none => false)
   | none => true) &&
  (match q.end_date with
   | some d => (match s.start_date with
     | some sd => sd ≤ d
     | none => false)
   | none => true) &&
  (if truthyStr q.settlement_type then s.settlement_type == q.settlement_type.getD "" else true) &&
  (if truthyNat q.agency_user_id then s.agency_user_id == q.agency_user_id else true) &&
  (if truthyNat q.advertiser_user_id then s.advertiser_user_id == q.advertiser_user_id else true)

/-- GET /settlements (src/api/routers/settlements.py lines 38-84), up to
the returned page of rows: filter, ORDER BY created_at DESC, then
offset/limit pagination.  The endpoint declares no current_user
dependency, so there is no caller argument and no permission filter. -/
def get_settlements_rows (q : SettlementQuery) (sdb : List Settlement) : List Settlement :=
  let filtered := sdb.filter (settlement_matches q)
  let sorted := filtered.insertionSort (fun a b => b.created_at ≤ a.created_at)
  (sorted.drop ((q.page - 1) * q.limit)).take q.limit

/-- Modelled from the spec: the role-dependent scope rule of §4.1
("resolve_scope"), as the reference definition for the refinement claim
about settlement scoping — the source has no settlement scoping code to
translate.  Superuser (hardcoded usernames of src/api/routers/auth.py,
or role admin) sees everything; total sees self, agency children and
their advertisers; agency sees self and its direct advertisers;
advertiser sees only self. -/
def spec_scope_member (caller : Identity) (db : List Account) (ownerId : Nat) : Bool :=
  if caller.username == "admin" || caller.username == "monteur" || caller.role == "admin" then
    true
  else if caller.role == "total" then
    let agency_ids := agency_children_ids db caller.user_id
    ownerId == caller.user_id || agency_ids.contains ownerId ||
      (db.filter (fun a =>
        a.role == "advertiser" &&
        match a.parent_user_id with
        | some p => agency_ids.contains p
        | none => false)).any (fun a => a.user_id == ownerId)
  else if caller.role == "agency" then
    ownerId == caller.user_id ||
      (db.filter (fun a =>
        a.parent_user_id == some caller.user_id && a.role == "advertiser")).any
        (fun a => a.user_id == ownerId)
  else if caller.role == "advertiser" then
    ownerId == caller.user_id
  else
    false

/-- The request body of POST /settlements (class SettlementCreate). -/
structure SettlementCreate where
  settlement_type : String
  agency_user_id : Option Nat := none
  advertiser_user_id : Option Nat := none
  ad_id : Option Nat := none
  quantity : Int := 1
  period_start : Int := 0
  period_end : Int := 0
  start_date : Int := 0
deriving Repr, DecidableEq

/-- The request body of PUT /settlements (class SettlementUpdate). -/
structure SettlementUpdate where
  settlement_type : Option String := none
  quantity : Option Int := none
  period_start : Option Int := none
  period_end : Option Int := none
  start_date : Option Int := none
deriving Repr, DecidableEq

/-- The autoincrement primary key the database would assign next. -/
def next_settlement_id (sdb : List Settlement) : Nat :=
  (sdb.map (fun s => s.settlement_id)).foldr max 0 + 1

/-- POST /settlements (src/api/routers/settlements.py lines 208-289).
The handler declares no current_user dependency: the time gate is called
with no arguments, so both of its parameters are None. -/
def create_settlement (nowSec : Nat) (db : List Account) (adb : List Ad)
    (sdb : List Settlement) (p : SettlementCreate) :
    Except ApiError (List Settlement × Settlement) :=
  match check_edit_time_allowed none none nowSec with
  | some e => .error e
  | none =>
  if !(["order", "extend", "refund"].contains p.settlement_type) then
    .error (.badRequest "유효하지 않은 정산 유형입니다. 가능한 유형: order, extend, refund")
  else if truthyNat p.agency_user_id && (find_by_user_id db (p.agency_user_id.getD 0)).isNone then
    .error (.notFound "대행사 계정을 찾을 수 없습니다.")
  else if truthyNat p.advertiser_user_id && (find_by_user_id db (p.advertiser_user_id.getD 0)).isNone then
    .error (.notFound "광고주 계정을 찾을 수 없습니다.")
  else if truthyNat p.ad_id && (adb.find? (fun a => a.ad_id == p.ad_id.getD 0)).isNone then
    .error (.notFound "광고를 찾을 수 없습니다.")
  else if p.period_end ≤ p.period_start then
    .error (.badRequest "기간 시작일은 기간 종료일보다 이전이어야 합니다.")
  else
    let total_days := p.period_end - p.period_start + 1
    let s : Settlement :=
      { settlement_id := next_settlement_id sdb
        settlement_type := p.settlement_type
        agency_user_id := p.agency_user_id
        advertiser_user_id := p.advertiser_user_id
        ad_id := p.ad_id
        quantity := p.quantity
        period_start := p.period_start
        period_end := p.period_end
        total_days := total_days
        start_date := some p.start_date
        created_at := nowSec }
    .ok (sdb ++ [s], s)

/-- PUT /settlements/(settlement_id) (src/api/routers/settlements.py
lines 292-357).  Again no current_user dependency; the time gate is
called with no arguments. -/
def update_settlement (nowSec : Nat) (sdb : List Settlement) (sid : Nat)
    (p : SettlementUpdate) : Except ApiError (List Settlement) :=
  match check_edit_time_allowed none none nowSec with
  | some e => .error e
  | none =>
  match sdb.find? (fun s => s.settlement_id == sid) with
  | none => .error (.notFound "정산 로그를 찾을 수 없습니다.")
  | some stmt0 =>
    if truthyStr p.settlement_type &&
        !(["order", "extend", "refund"].contains (p.settlement_type.getD "")) then
      .error (.badRequest "유효하지 않은 정산 유형입니다. 가능한 유형: order, extend, refund")
    else
      let stmt1 :=
        if truthyStr p.settlement_type then
          { stmt0 with settlement_type := p.settlement_type.getD "" }
        else stmt0
      let stmt2 :=
        match p.quantity with
        | some qv => { stmt1 with quantity := qv }
        | none => stmt1
      let period_start := p.period_start.getD stmt2.period_start
      let period_end := p.period_end.getD stmt2.period_end
      if (p.period_start.isSome || p.period_end.isSome) && period_end ≤ period_start then
        .error (.badRequest "기간 시작일은 기간 종료일보다 이전이어야 합니다.")
      else
        let stmt3 :=
          if p.period_start.isSome || p.period_end.isSome then
            { stmt2 with
              period_start := period_start
              period_end := period_end
              total_days := period_end - period_start + 1 }
          else stmt2
        let stmt4 :=
          match p.start_date with
          | some d => { stmt3 with start_date := some d }
          | none => stmt3
        .ok (sdb.map (fun s => if s.settlement_id == sid then stmt4 else s))

/-- The request body of POST /accounts (class AccountCreate). -/
structure AccountCreate where
  username : String
  password : String
  role : String
  parent_user_id : Option Nat := none
  affiliation : Option String := none
  memo : Option String := none
deriving Repr, DecidableEq

/-- The request body of PUT /accounts (class AccountUpdate). -/
structure AccountUpdate where
  password : Option String := none
  role : Option String := none
  affiliation : Option String := none
  memo : Option String := none
  is_active : Option Bool := none
deriving Repr, DecidableEq

/-- hash_password from src/utils/password.py; hashing itself is an
external collaborator (spec §1), modelled as an injective tagging. -/
def hash_password (password : String) : String :=
  "sha256:" ++ password

/-- The autoincrement primary key the database would assign next. -/
def next_user_id (db : List Account) : Nat :=
  (db.map (fun a => a.user_id)).foldr max 0 + 1

/-- The parent_user_id auto-assignment block of create_account
(src/api/routers/accounts.py lines 420-441).  `not final_parent_user_id`
is Python truthiness: None and 0 both trigger the default. -/
def final_parent_of (current : Identity) (actual : Account) (p : AccountCreate) : Option Nat :=
  if !(["admin", "monter"].contains current.username) then
    if p.role == "total" then
      none
    else if p.role == "agency" then
      if actual.role == "total" then some actual.user_id
      else if !truthyNat p.parent_user_id then some actual.user_id
      else p.parent_user_id
    else if p.role == "advertiser" then
      if actual.role == "agency" then some actual.user_id
      else if !truthyNat p.parent_user_id then some actual.user_id
      else p.parent_user_id
    else
      p.parent_user_id
  else
    p.parent_user_id

/-- The row create_account inserts (src/api/routers/accounts.py lines
478-486), given the final parent id after auto-assignment. -/
def created_account (db : List Account) (p : AccountCreate) (fp : Option Nat) : Account :=
  { user_id := next_user_id db
    username := p.username
    role := p.role
    parent_user_id := fp
    affiliation := p.affiliation
    memo := p.memo
    password_hash := hash_password p.password
    is_active := true }

/-- The parent validation block of create_account (src/api/routers/
accounts.py lines 443-472) followed by the insertion (lines 474-490),
given the final parent id after auto-assignment.  Each validation is
skipped when the final parent is falsy (None or 0, Python truthiness). -/
def validate_and_insert (db : List Account) (p : AccountCreate) (fp : Option Nat) :
    Except ApiError (List Account × Account) :=
  if p.role == "agency" && truthyNat fp then
    match find_by_user_id db (fp.getD 0) with
    | none => .error (.badRequest "상위 계정을 찾을 수 없습니다.")
    | some parent =>
      if parent.role != "total" then
        .error (.badRequest "대행사의 상위 계정은 총판사여야 합니다.")
      else .ok (db ++ [created_account db p fp], created_account db p fp)
  else if p.role == "advertiser" && truthyNat fp then
    match find_by_user_id db (fp.getD 0) with
    | none => .error (.badRequest "상위 계정을 찾을 수 없습니다.")
    | some parent =>
      if parent.role != "agency" then
        .error (.badRequest "광고주의 상위 계정은 대행사여야 합니다.")
      else .ok (db ++ [created_account db p fp], created_account db p fp)
  else if p.role == "total" && truthyNat fp then
    .error (.badRequest "총판사는 상위 계정을 가질 수 없습니다.")
  else .ok (db ++ [created_account db p fp], created_account db p fp)

/-- POST /accounts (src/api/routers/accounts.py lines 368-499): time
gate, duplicate-username check, role validation, caller re-fetch with
stale-identity check, parent auto-assignment, parent/role validation,
then insertion. -/
def create_account (nowSec : Nat) (current : Identity) (db : List Account)
    (p : AccountCreate) : Except ApiError (List Account × Account) :=
  match check_edit_time_allowed (some current.username) (some current.role) nowSec with
  | some e => .error e
  | none =>
  if (find_by_username db p.username).isSome then
    .error (.badRequest "이미 존재하는 아이디입니다.")
  else if !(["total", "agency", "advertiser"].contains p.role) then
    .error (.badRequest "유효하지 않은 역할입니다. 가능한 역할: total, agency, advertiser")
  else
  match find_by_username db current.username with
  | none => .error (.notFound userNotFoundDetail)
  | some actual =>
  if actual.role != current.role then
    .error (.forbidden staleIdentityDetail)
  else
    validate_and_insert db p (final_parent_of current actual p)

/-- The field updates PUT /accounts applies to the fetched row
(src/api/routers/accounts.py lines 527-551), given that the role value,
if truthy, has already been validated. -/
def apply_account_update (p : AccountUpdate) (user0 : Account) : Account :=
  let user1 :=
    if truthyStr p.password then
      { user0 with password_hash := hash_password (p.password.getD "") }
    else user0
  let user2 :=
    if truthyStr p.role then { user1 with role := p.role.getD "" } else user1
  let user3 :=
    match p.affiliation with
    | some v => { user2 with affiliation := some v }
    | none => user2
  let user4 :=
    match p.memo with
    | some v => { user3 with memo := some v }
    | none => user3
  match p.is_active with
  | some v => { user4 with is_active := v }
  | none => user4

/-- PUT /accounts/(user_id) (src/api/routers/accounts.py lines 502-564):
time gate, fetch, optional role validation, field updates.  The handler
performs no ownership or stale-identity check. -/
def update_account (nowSec : Nat) (current : Identity) (db : List Account)
    (uid : Nat) (p : AccountUpdate) : Except ApiError (List Account) :=
  match check_edit_time_allowed (some current.username) (some current.role) nowSec with
  | some e => .error e
  | none =>
  match find_by_user_id db uid with
  | none => .error (.notFound "계정을 찾을 수 없습니다.")
  | some _ =>
    if truthyStr p.role && !(["total", "agency", "advertiser"].contains (p.role.getD "")) then
      .error (.badRequest "유효하지 않은 역할입니다. 가능한 역할: total, agency, advertiser")
    else
      .ok (db.map (fun a => if a.user_id == uid then apply_account_update p a else a))

/-- One loop iteration of DELETE /accounts: soft-delete the account with
the given id if present, else record it as not found. -/
def delete_one_account (st : List Account × Nat × List Nat) (uid : Nat) :
    List Account × Nat × List Nat :=
  let (cur, cnt, nf) := st
  match find_by_user_id cur uid with
  | none => (cur, cnt, nf ++ [uid])
  | some _ =>
    (cur.map (fun a => if a.user_id == uid then { a with is_active := false } else a),
     cnt + 1, nf)

/-- DELETE /accounts (src/api/routers/accounts.py lines 567-622): time
gate, then soft-delete (is_active := false) of every listed id.  The
handler performs no ownership or stale-identity check. -/
def delete_accounts (nowSec : Nat) (current : Identity) (db : List Account)
    (user_ids : List Nat) : Except ApiError (List Account × Nat × List Nat) :=
  match check_edit_time_allowed (some current.username) (some current.role) nowSec with
  | some e => .error e
  | none =>
    .ok (user_ids.foldl delete_one_account (db, 0, []))

/-- The parent/role compatibility rule of spec §3 for a single row:
a total has no parent; the parent of an agency, if set, is a total; the
parent of an advertiser, if set, is an agency. -/
def role_parent_ok (db : List Account) (a : Account) : Bool :=
  if a.role == "total" then
    a.parent_user_id == none
  else if a.role == "agency" then
    match a.parent_user_id with
    | none => true
    | some p => db.any (fun b => b.user_id == p && b.role == "total")
  else if a.role == "advertiser" then
    match a.parent_user_id with
    | none => true
    | some p => db.any (fun b => b.user_id == p && b.role == "agency")
  else
    true

/-- The hierarchy invariant of spec §3 over the whole directory. -/
def hierarchy_invariant (db : List Account) : Bool :=
  db.all (role_parent_ok db)

/-- Observable success of an endpoint result. -/
def is_ok {ε α : Type} : Except ε α → Bool
  | .ok _ => true
  | .error _ => false

/-! Concrete directory states and requests used by the witnesses and
counterexamples below. -/

/-- An advertiser account, the caller of the settlement-scoping scenario. -/
def c1_adv1 : Account := { user_id := 1, username := "adv1", role := "advertiser" }

/-- A second, unrelated advertiser account. -/
def c1_adv2 : Account := { user_id := 2, username := "adv2", role := "advertiser" }

/-- Directory with two unrelated advertisers. -/
def c1_db : List Account := [c1_adv1, c1_adv2]

/-- The session identity of c1_adv1. -/
def c1_caller : Identity := ⟨1, "adv1", "advertiser"⟩

/-- A settlement row belonging to the unrelated advertiser c1_adv2. -/
def c1_settlement : Settlement :=
  { settlement_id := 1, settlement_type := "order", advertiser_user_id := some 2 }

/-- An agency account with no relation to c2_victim. -/
def c2_agency : Account := { user_id := 1, username := "ag1", role := "agency" }

/-- An advertiser account outside the scope of the agency caller (its parent
is the unrelated id 9). -/
def c2_victim : Account :=
  { user_id := 2, username := "victim", role := "advertiser", parent_user_id := some 9 }

/-- Directory with the agency caller and the out-of-scope victim. -/
def c2_db : List Account := [c2_agency, c2_victim]

/-- The session identity of c2_agency. -/
def c2_caller : Identity := ⟨1, "ag1", "agency"⟩

/-- c2_db after the unauthorized memo update goes through. -/
def c2_db_updated : List Account := [c2_agency, { c2_victim with memo := some "hacked" }]

/-- c2_db after the unauthorized soft delete goes through. -/
def c2_db_deleted : List Account := [c2_agency, { c2_victim with is_active := false }]

/-- A total account, root of the c3 scenario. -/
def c3_total : Account := { user_id := 1, username := "t1", role := "total" }

/-- An agency account parented to c3_total. -/
def c3_agency : Account :=
  { user_id := 2, username := "ag1", role := "agency", parent_user_id := some 1 }

/-- A directory satisfying the hierarchy invariant. -/
def c3_db : List Account := [c3_total, c3_agency]

/-- c3_db after PUT /accounts/2 changes the role of the agency to advertiser:
an advertiser whose parent is a total. -/
def c3_db_bad : List Account := [c3_total, { c3_agency with role := "advertiser" }]

/-- An account whose directory role is admin but whose username is not in
the router allow-list. -/
def c4_boss : Account := { user_id := 5, username := "boss", role := "admin" }

/-- Directory containing only c4_boss. -/
def c4_db : List Account := [c4_boss]

/-- The consistent session identity of c4_boss. -/
def c4_caller : Identity := ⟨5, "boss", "admin"⟩

/-- An account whose directory role is advertiser. -/
def c5_bob : Account := { user_id := 2, username := "bob", role := "advertiser" }

/-- Directory containing only c5_bob. -/
def c5_db : List Account := [c5_bob]

/-- A stale session for c5_bob: the session still says agency while the
directory says advertiser. -/
def c5_caller : Identity := ⟨2, "bob", "agency"⟩

/-- A well-formed settlement creation request. -/
def c6_payload : SettlementCreate :=
  { settlement_type := "order", period_start := 0, period_end := 3, start_date := 0 }

/-- An existing settlement row for the update scenario. -/
def c6_settlement : Settlement := { settlement_id := 1, settlement_type := "order" }

/-- A total account, the creator in the c7 scenario. -/
def c7_total : Account := { user_id := 1, username := "t1", role := "total" }

/-- Directory containing only c7_total. -/
def c7_db : List Account := [c7_total]

/-- The consistent session identity of c7_total. -/
def c7_caller : Identity := ⟨1, "t1", "total"⟩

/-- A creation request for a total account with an explicit non-null
parent, sent by the non-superuser total caller. -/
def c7_payload : AccountCreate :=
  { username := "newtotal", password := "pw", role := "total", parent_user_id := some 1 }

/-- The account the code actually creates for c7_payload: the explicit
parent is silently overridden to none. -/
def c7_new : Account :=
  { user_id := 2, username := "newtotal", role := "total", parent_user_id := none,
    password_hash := hash_password "pw" }

/-- A total account with no agency children. -/
def c8_total : Account := { user_id := 1, username := "t8", role := "total" }

/-- The consistent session identity of c8_total. -/
def c8_caller : Identity := ⟨1, "t8", "total"⟩

/-- An agency account used for the reflexivity witness. -/
def c10_agency : Account := { user_id := 3, username := "agx", role := "agency" }

/-! Theorems. -/

/-- C9: for every caller that the time gate itself does not recognise as
a superuser, check_edit_time_allowed rejects with the Forbidden cutoff
error at 16:30:00 (59400 s) or later, and returns no error strictly
before 16:30:00. -/
theorem c9_time_gate_boundary (current : Identity) (t : Nat)
    (hsu : is_time_gate_superuser (some current.username) (some current.role) = false) :
    (editCutoffSec ≤ t →
      check_edit_time_allowed (some current.username) (some current.role) t =
        some (.forbidden timeGateDetail) ∧
      ∀ (db : List Account) (uid : Nat) (p : AccountUpdate),
        update_account t current db uid p = .error (.forbidden timeGateDetail)) ∧
    (t < editCutoffSec →
      check_edit_time_allowed (some current.username) (some current.role) t = none) := by
  unfold is_time_gate_superuser at hsu
  rw [Bool.or_eq_false_iff] at hsu
  constructor
  · intro ht
    have hg : check_edit_time_allowed (some current.username) (some current.role) t =
        some (.forbidden timeGateDetail) := by
      unfold check_edit_time_allowed
      rw [hsu.1, hsu.2]
      simp [ht]
    refine ⟨hg, ?_⟩
    intro db uid p
    unfold update_account
    rw [hg]
  · intro ht
    unfold check_edit_time_allowed
    rw [hsu.1, hsu.2]
    simp [Nat.not_le.mpr ht]

/-- C9 witness: a plain agency user is rejected at exactly 16:30:00
(also on the concrete account update endpoint) and passes the gate at
16:29:59. -/
theorem c9_time_gate_boundary_witness :
    is_time_gate_superuser (some "alice") (some "agency") = false ∧
    check_edit_time_allowed (some "alice") (some "agency") 59400 =
      some (.forbidden timeGateDetail) ∧
    update_account 59400 ⟨7, "alice", "agency"⟩ [] 1 {} =
      .error (.forbidden timeGateDetail) ∧
    check_edit_time_allowed (some "alice") (some "agency") 59399 = none :=
  ⟨by decide,
   ((c9_time_gate_boundary ⟨7, "alice", "agency"⟩ 59400 (by decide)).1 (by decide)).1,
   ((c9_time_gate_boundary ⟨7, "alice", "agency"⟩ 59400 (by decide)).1 (by decide)).2 [] 1 {},
   (c9_time_gate_boundary ⟨7, "alice", "agency"⟩ 59399 (by decide)).2 (by decide)⟩

/-- C6 counterexample: at 17:00 (61200 s) the settlement create and
update endpoints reject every request with the time-gate Forbidden error
— even though the gate itself would exempt the admin identity, the
handlers pass it no identity at all (check_edit_time_allowed is called
with no arguments), so a request by a superuser is rejected too. -/
theorem c6_superuser_exemption_counterexample :
    check_edit_time_allowed (some "admin") (some "admin") 61200 = none ∧
    create_settlement 61200 [] [] [] c6_payload = .error (.forbidden timeGateDetail) ∧
    update_settlement 61200 [c6_settlement] 1 {} = .error (.forbidden timeGateDetail) :=
  ⟨rfl, rfl, rfl⟩

/-- C6 amended: settlement create and update call the time gate with no
caller identity, so the superuser exemption never applies there: every
invocation at 16:30:00 or later is rejected with the Forbidden cutoff
error, whoever the caller is. -/
theorem c6_settlement_gate_hits_everyone (nowSec : Nat) (db : List Account)
    (adb : List Ad) (sdb : List Settlement) (p : SettlementCreate) (sid : Nat)
    (up : SettlementUpdate) (ht : editCutoffSec ≤ nowSec) :
    create_settlement nowSec db adb sdb p = .error (.forbidden timeGateDetail) ∧
    update_settlement nowSec sdb sid up = .error (.forbidden timeGateDetail) := by
  have hg : check_edit_time_allowed none none nowSec = some (.forbidden timeGateDetail) := by
    unfold check_edit_time_allowed
    simp [ht]
  constructor
  · unfold create_settlement
    rw [hg]
  · unfold update_settlement
    rw [hg]

/-- C6 amended witness: the gate fires at 17:00 on concrete requests. -/
theorem c6_settlement_gate_hits_everyone_witness :
    editCutoffSec ≤ 61200 ∧
    create_settlement 61200 [] [] [] c6_payload = .error (.forbidden timeGateDetail) ∧
    update_settlement 61200 [c6_settlement] 1 {} = .error (.forbidden timeGateDetail) :=
  ⟨by decide,
   (c6_settlement_gate_hits_everyone 61200 [] [] [] c6_payload 1 {} (by decide)).1,
   (c6_settlement_gate_hits_everyone 61200 [] [] [] c6_payload 1 {} (by decide)).2⟩

/-- C4 counterexample: a caller whose directory-resolved role is admin
but whose username is outside the fixed allow-list is rejected with
Forbidden by both list filters, instead of getting an unrestricted
query. -/
theorem c4_admin_role_counterexample :
    c4_boss.role = "admin" ∧
    find_by_username c4_db c4_caller.username = some c4_boss ∧
    apply_account_permission_filter c4_caller c4_db =
      .error (.forbidden noPermissionDetail) ∧
    apply_advertisement_permission_filter c4_caller c4_db =
      .error (.forbidden noPermissionDetail) :=
  ⟨rfl, rfl, rfl, rfl⟩

/-- C4 amended: a caller with resolved role admin whose username is not
in the allow-list of the routers is not unrestricted: both the account
list filter and the advertisement list filter reject it with Forbidden
(the role dispatch has no admin branch). -/
theorem c4_admin_role_not_unrestricted (current : Identity) (db : List Account)
    (a : Account)
    (hsu : (["admin", "monter"].contains current.username) = false)
    (hfind : find_by_username db current.username = some a)
    (hrole : a.role = "admin") (hsess : current.role = "admin") :
    apply_account_permission_filter current db = .error (.forbidden noPermissionDetail) ∧
    apply_advertisement_permission_filter current db =
      .error (.forbidden noPermissionDetail) := by
  constructor
  · unfold apply_account_permission_filter
    rw [hsu, hfind]
    simp [hrole, hsess]
  · unfold apply_advertisement_permission_filter
    rw [hsu]
    simp [hsess]

/-- C4 amended witness: the concrete admin-role caller outside the
allow-list. -/
theorem c4_admin_role_not_unrestricted_witness :
    (["admin", "monter"].contains c4_caller.username) = false ∧
    apply_account_permission_filter c4_caller c4_db =
      .error (.forbidden noPermissionDetail) ∧
    apply_advertisement_permission_filter c4_caller c4_db =
      .error (.forbidden noPermissionDetail) :=
  ⟨by decide,
   (c4_admin_role_not_unrestricted c4_caller c4_db c4_boss (by decide) rfl rfl rfl).1,
   (c4_admin_role_not_unrestricted c4_caller c4_db c4_boss (by decide) rfl rfl rfl).2⟩

/-- C5 counterexample: with a stale session (session role agency,
directory role advertiser) the account list filter does fail with the
stale-identity error, but the advertisement list filter returns a scope
(an ok predicate) instead of failing — it never re-fetches the caller. -/
theorem c5_stale_identity_counterexample :
    c5_bob.role = "advertiser" ∧ c5_caller.role = "agency" ∧
    find_by_username c5_db c5_caller.username = some c5_bob ∧
    apply_account_permission_filter c5_caller c5_db =
      .error (.forbidden staleIdentityDetail) ∧
    is_ok (apply_advertisement_permission_filter c5_caller c5_db) = true :=
  ⟨rfl, rfl, rfl, rfl, rfl⟩

/-- C5 amended: the stale-identity consistency check exists only in the
account list filter: a non-allow-listed caller whose directory role
differs from the session role gets the stale-identity error from the
account filter, while the advertisement filter trusts the session role
and always returns a scope for an agency session, whatever the directory
says. -/
theorem c5_stale_identity_account_only (current : Identity) (db : List Account)
    (a : Account)
    (hsu : (["admin", "monter"].contains current.username) = false)
    (hfind : find_by_username db current.username = some a)
    (hrole : (a.role != current.role) = true) :
    apply_account_permission_filter current db =
      .error (.forbidden staleIdentityDetail) ∧
    (∀ c2 : Identity, ∀ db2 : List Account, c2.role = "agency" →
      is_ok (apply_advertisement_permission_filter c2 db2) = true) := by
  constructor
  · unfold apply_account_permission_filter
    rw [hsu, hfind]
    simp [hrole]
  · intro c2 db2 h2
    unfold apply_advertisement_permission_filter
    cases hc : ["admin", "monter"].contains c2.username
    · simp [hc, h2, is_ok]
    · simp [hc, is_ok]

/-- C5 amended witness: the concrete stale caller. -/
theorem c5_stale_identity_account_only_witness :
    find_by_username c5_db c5_caller.username = some c5_bob ∧
    apply_account_permission_filter c5_caller c5_db =
      .error (.forbidden staleIdentityDetail) ∧
    is_ok (apply_advertisement_permission_filter c5_caller c5_db) = true :=
  ⟨rfl,
   (c5_stale_identity_account_only c5_caller c5_db c5_bob (by decide) rfl (by decide)).1,
   (c5_stale_identity_account_only c5_caller c5_db c5_bob (by decide) rfl
     (by decide)).2 c5_caller c5_db rfl⟩

/-- C10 counterexample: self-access is not allowed for every role value.
For a consistent non-superuser caller whose role is admin (not in the
router allow-list), the single-account access check denies access to the
own account of the caller: the role dispatch falls through to the final
deny. -/
theorem c10_reflexivity_counterexample :
    find_by_username c4_db c4_boss.username = some c4_boss ∧
    check_account_access_permission c4_boss ⟨c4_boss.user_id, c4_boss.username, c4_boss.role⟩
      c4_db = false :=
  ⟨rfl, rfl⟩

/-- C10 amended: the account access check is reflexive only for the
three hierarchy roles (total, agency, advertiser); the advertisement
ownership check is reflexive for any session role provided the owning
account exists in the directory.  For other role values the account
check denies self-access. -/
theorem c10_reflexivity_amended :
    (∀ (db : List Account) (X : Account),
      find_by_username db X.username = some X →
      (X.role = "total" ∨ X.role = "agency" ∨ X.role = "advertiser") →
      check_account_access_permission X ⟨X.user_id, X.username, X.role⟩ db = true) ∧
    (∀ (db : List Account) (ad : Ad) (ident : Identity),
      ad.user_id = ident.user_id →
      (find_by_user_id db ad.user_id).isSome = true →
      check_advertisement_ownership ad ident db = true) := by
  constructor
  · intro db X hfind hrole
    unfold check_account_access_permission
    cases hc : ["admin", "monter"].contains X.username
    · rw [hfind]
      rcases hrole with h | h | h <;> simp [h]
    · simp
  · intro db ad ident heq hfound
    unfold check_advertisement_ownership
    cases hc : ["admin", "monter"].contains ident.username
    · rw [Option.isSome_iff_exists] at hfound
      obtain ⟨adv, hadv⟩ := hfound
      rw [hadv]
      simp [heq]
    · simp

/-- C10 amended witness: reflexivity at a concrete agency account, and
at a concrete advertisement owned by the caller. -/
theorem c10_reflexivity_amended_witness :
    check_account_access_permission c10_agency
      ⟨c10_agency.user_id, c10_agency.username, c10_agency.role⟩ [c10_agency] = true ∧
    check_advertisement_ownership { ad_id := 1, user_id := 3 }
      ⟨c10_agency.user_id, c10_agency.username, c10_agency.role⟩ [c10_agency] = true :=
  ⟨c10_reflexivity_amended.1 [c10_agency] c10_agency rfl (Or.inr (Or.inl rfl)),
   c10_reflexivity_amended.2 [c10_agency] { ad_id := 1, user_id := 3 }
     ⟨c10_agency.user_id, c10_agency.username, c10_agency.role⟩ rfl (by decide)⟩

/-- C2 counterexample: an agency caller updates and soft-deletes an
account outside its scope.  The ownership check denies the target, yet
PUT applies the memo change and DELETE deactivates the account: the
mutation is neither denied nor does it leave the target unchanged. -/
theorem c2_mutation_unchecked_counterexample :
    check_account_access_permission c2_victim c2_caller c2_db = false ∧
    update_account 0 c2_caller c2_db 2 { memo := some "hacked" } = .ok c2_db_updated ∧
    delete_accounts 0 c2_caller c2_db [2] = .ok (c2_db_deleted, 1, []) ∧
    c2_victim.memo = none ∧ c2_victim.is_active = true :=
  ⟨rfl, rfl, rfl, rfl, rfl⟩

/-- C2 amended: the single-account update and the account delete perform
no ownership check at all: whenever the time gate passes, the target
exists and the request carries no (or an empty) role value, the update
succeeds even though the ownership check denies the caller, and the
delete always succeeds. -/
theorem c2_no_ownership_check_on_mutation (nowSec : Nat) (current : Identity)
    (db : List Account) (uid : Nat) (p : AccountUpdate) (user0 : Account)
    (ids : List Nat)
    (hg : check_edit_time_allowed (some current.username) (some current.role) nowSec = none)
    (hfind : find_by_user_id db uid = some user0)
    (hdenied : check_account_access_permission user0 current db = false)
    (hrole : truthyStr p.role = false) :
    is_ok (update_account nowSec current db uid p) = true ∧
    is_ok (delete_accounts nowSec current db ids) = true := by
  constructor
  · unfold update_account
    rw [hg, hfind]
    simp [hrole, is_ok]
  · unfold delete_accounts
    rw [hg]
    simp [is_ok]

/-- C2 amended witness: the concrete out-of-scope update and delete. -/
theorem c2_no_ownership_check_on_mutation_witness :
    check_account_access_permission c2_victim c2_caller c2_db = false ∧
    is_ok (update_account 0 c2_caller c2_db 2 { memo := some "x" }) = true ∧
    is_ok (delete_accounts 0 c2_caller c2_db [2]) = true :=
  ⟨by decide,
   (c2_no_ownership_check_on_mutation 0 c2_caller c2_db 2 { memo := some "x" }
     c2_victim [2] rfl rfl (by decide) rfl).1,
   (c2_no_ownership_check_on_mutation 0 c2_caller c2_db 2 { memo := some "x" }
     c2_victim [2] rfl rfl (by decide) rfl).2⟩

/-- C7 counterexample: a non-superuser total caller creates a total
account supplying an explicit non-null parent_user_id; the creation does
not fail with the hierarchy error — the parent is silently overridden to
none and the account is created. -/
theorem c7_total_parent_counterexample :
    c7_payload.parent_user_id = some 1 ∧
    create_account 0 c7_caller c7_db c7_payload = .ok (c7_db ++ [c7_new], c7_new) ∧
    c7_new.parent_user_id = none :=
  ⟨rfl, rfl, rfl⟩

/-- C7 amended: (a) a non-superuser total caller creating an agency with
no explicit parent gets parent_user_id = the id of the caller; (b) a
superuser caller creating a total with an explicit truthy parent fails
with the hierarchy error; (c) a non-superuser caller creating a total
with an explicit parent has the parent overridden to none and the
creation succeeds. -/
theorem c7_parent_assignment_amended :
    (∀ (nowSec : Nat) (current : Identity) (db : List Account) (p : AccountCreate)
      (actual : Account),
      check_edit_time_allowed (some current.username) (some current.role) nowSec = none →
      (find_by_username db p.username).isSome = false →
      p.role = "agency" →
      (["admin", "monter"].contains current.username) = false →
      find_by_username db current.username = some actual →
      actual.role = "total" → current.role = "total" →
      find_by_user_id db actual.user_id = some actual →
      actual.user_id ≠ 0 →
      ∃ newA, create_account nowSec current db p = .ok (db ++ [newA], newA) ∧
        newA.parent_user_id = some actual.user_id) ∧
    (∀ (nowSec : Nat) (current : Identity) (db : List Account) (p : AccountCreate)
      (actual : Account),
      check_edit_time_allowed (some current.username) (some current.role) nowSec = none →
      (find_by_username db p.username).isSome = false →
      p.role = "total" →
      (["admin", "monter"].contains current.username) = true →
      find_by_username db current.username = some actual →
      (actual.role != current.role) = false →
      truthyNat p.parent_user_id = true →
      create_account nowSec current db p =
        .error (.badRequest "총판사는 상위 계정을 가질 수 없습니다.")) ∧
    (∀ (nowSec : Nat) (current : Identity) (db : List Account) (p : AccountCreate)
      (actual : Account),
      check_edit_time_allowed (some current.username) (some current.role) nowSec = none →
      (find_by_username db p.username).isSome = false →
      p.role = "total" →
      (["admin", "monter"].contains current.username) = false →
      find_by_username db current.username = some actual →
      (actual.role != current.role) = false →
      ∃ newA, create_account nowSec current db p = .ok (db ++ [newA], newA) ∧
        newA.parent_user_id = none) := by
  refine ⟨?_, ?_, ?_⟩
  · intro nowSec current db p actual hg hdup hrole hsu hfind hact hsess hpid hnz
    have hstale : (actual.role != current.role) = false := by
      rw [hact, hsess]
      simp
    have hfp : final_parent_of current actual p = some actual.user_id := by
      unfold final_parent_of
      rw [hsu, hrole, hact]
      simp
    refine ⟨created_account db p (some actual.user_id), ?_, rfl⟩
    unfold create_account validate_and_insert
    rw [hg]
    simp [hdup, hrole, hfind, hstale, hfp, truthyNat, hnz, hpid, hact, hsess]
  · intro nowSec current db p actual hg hdup hrole hsu hfind hstale htr
    have hfp : final_parent_of current actual p = p.parent_user_id := by
      unfold final_parent_of
      rw [hsu]
      simp
    unfold create_account validate_and_insert
    rw [hg]
    simp [hdup, hrole, hfind, hstale, hfp, htr]
  · intro nowSec current db p actual hg hdup hrole hsu hfind hstale
    have hfp : final_parent_of current actual p = none := by
      unfold final_parent_of
      rw [hsu, hrole]
      simp
    refine ⟨created_account db p none, ?_, rfl⟩
    unfold create_account validate_and_insert
    rw [hg]
    simp [hdup, hrole, hfind, hstale, hfp, truthyNat]

/-- C7 amended witness: the three concrete creations. -/
theorem c7_parent_assignment_amended_witness :
    (∃ newA, create_account 0 c7_caller c7_db
        { username := "newag", password := "pw", role := "agency" } =
        .ok (c7_db ++ [newA], newA) ∧ newA.parent_user_id = some c7_total.user_id) ∧
    create_account 0 ⟨6, "admin", "admin"⟩
        [{ user_id := 6, username := "admin", role := "admin" }]
        { username := "nt", password := "p", role := "total", parent_user_id := some 1 } =
      .error (.badRequest "총판사는 상위 계정을 가질 수 없습니다.") ∧
    (∃ newA, create_account 0 c7_caller c7_db c7_payload = .ok (c7_db ++ [newA], newA) ∧
      newA.parent_user_id = none) :=
  ⟨c7_parent_assignment_amended.1 0 c7_caller c7_db
      { username := "newag", password := "pw", role := "agency" } c7_total
      rfl rfl rfl (by decide) rfl rfl rfl rfl (by decide),
   c7_parent_assignment_amended.2.1 0 ⟨6, "admin", "admin"⟩
      [{ user_id := 6, username := "admin", role := "admin" }]
      { username := "nt", password := "p", role := "total", parent_user_id := some 1 }
      { user_id := 6, username := "admin", role := "admin" }
      rfl rfl rfl (by decide) rfl (by decide) rfl,
   c7_parent_assignment_amended.2.2 0 c7_caller c7_db c7_payload c7_total
      rfl rfl rfl (by decide) rfl (by decide)⟩

/-- C1 counterexample: GET /settlements returns a settlement row whose
advertiser lies outside the resolved scope of the caller: the advertiser
caller c1_adv1 would receive the row of the unrelated advertiser
c1_adv2, because the endpoint has no caller and applies no permission
filter. -/
theorem c1_settlement_scope_counterexample :
    get_settlements_rows {} [c1_settlement] = [c1_settlement] ∧
    c1_settlement.advertiser_user_id = some 2 ∧
    spec_scope_member c1_caller c1_db 2 = false :=
  ⟨by decide, rfl, rfl⟩

/-- C1 amended: the settlement list applies only the explicit request
filters and no caller-based scope (the handler has no caller parameter):
every returned row is a stored row matching the query arguments, for any
caller whatsoever. -/
theorem c1_settlement_list_unscoped (q : SettlementQuery) (sdb : List Settlement)
    (s : Settlement) (hs : s ∈ get_settlements_rows q sdb) :
    s ∈ sdb ∧ settlement_matches q s = true := by
  unfold get_settlements_rows at hs
  have h2 := List.take_subset _ _ hs
  have h3 := List.drop_subset _ _ h2
  have h4 := (List.perm_insertionSort _ _).mem_iff.mp h3
  exact ⟨(List.mem_filter.mp h4).1, (List.mem_filter.mp h4).2⟩

/-- C1 amended witness: the out-of-scope row of the counterexample is
indeed a stored, filter-matching row. -/
theorem c1_settlement_list_unscoped_witness :
    c1_settlement ∈ [c1_settlement] ∧ settlement_matches {} c1_settlement = true :=
  c1_settlement_list_unscoped {} [c1_settlement] c1_settlement (by decide)

/-- In a well-formed directory (unique ids, valid roles, hierarchy
invariant), no account points at a total account that has no agency
children: any such pointer would have to come from an agency child. -/
theorem no_parent_points_at_childless_total (db : List Account) (c : Account)
    (hc : c ∈ db) (hrole : c.role = "total")
    (huniq : ∀ a ∈ db, ∀ b ∈ db, a.user_id = b.user_id → a = b)
    (hroles : ∀ a ∈ db, a.role = "total" ∨ a.role = "agency" ∨ a.role = "advertiser")
    (hinv : hierarchy_invariant db = true)
    (hnoag : agency_children_ids db c.user_id = [])
    (a : Account) (ha : a ∈ db) : (a.parent_user_id == some c.user_id) = false := by
  by_contra h
  rw [Bool.not_eq_false, beq_iff_eq] at h
  have hrpo : role_parent_ok db a = true := (List.all_eq_true.mp hinv) a ha
  rcases hroles a ha with hr | hr | hr
  · rw [role_parent_ok, hr] at hrpo
    simp [h] at hrpo
  · have hmem : a ∈ db.filter
        (fun x => x.parent_user_id == some c.user_id && x.role == "agency") := by
      rw [List.mem_filter]
      exact ⟨ha, by simp [h, hr]⟩
    rw [agency_children_ids, List.map_eq_nil_iff] at hnoag
    rw [hnoag] at hmem
    simp at hmem
  · rw [role_parent_ok, hr] at hrpo
    simp only [h] at hrpo
    simp only [show ("advertiser" == "total") = false from rfl,
      show ("advertiser" == "agency") = false from rfl, Bool.false_eq_true,
      if_false, if_true, show ("advertiser" == "advertiser") = true from rfl] at hrpo
    rw [List.any_eq_true] at hrpo
    obtain ⟨b, hb, hbp⟩ := hrpo
    rw [Bool.and_eq_true, beq_iff_eq, beq_iff_eq] at hbp
    have hbc : b = c := huniq b hb c hc hbp.1
    rw [hbc, hrole] at hbp
    exact absurd hbp.2 (by decide)

/-- C8: a non-superuser total caller with a consistent session and zero
agency children, in a well-formed directory (unique ids, valid roles,
hierarchy invariant), sees exactly the rows carrying its own user_id:
the empty agency id set is omitted from the filter and produces no
spurious matches. -/
theorem c8_total_empty_agency_scope (current : Identity) (db : List Account)
    (c : Account)
    (hsu : (["admin", "monter"].contains current.username) = false)
    (hfind : find_by_username db current.username = some c)
    (hrole : c.role = "total") (hsess : current.role = "total")
    (huniq : ∀ a ∈ db, ∀ b ∈ db, a.user_id = b.user_id → a = b)
    (hroles : ∀ a ∈ db, a.role = "total" ∨ a.role = "agency" ∨ a.role = "advertiser")
    (hinv : hierarchy_invariant db = true)
    (hnoag : agency_children_ids db c.user_id = []) :
    get_accounts_visible current db =
      .ok (db.filter (fun a => a.user_id == c.user_id)) := by
  have hc : c ∈ db := List.mem_of_find?_eq_some hfind
  have hstale : (c.role != current.role) = false := by
    rw [hrole, hsess]
    simp
  unfold get_accounts_visible apply_account_permission_filter
  rw [hsu]
  simp only [Bool.false_eq_true, if_false]
  rw [hfind]
  simp only [hrole, hsess, bne_self_eq_false, Bool.false_eq_true, if_false,
    show ("total" == "total") = true from rfl, if_true, hnoag, List.isEmpty_nil,
    List.append_nil]
  refine congrArg Except.ok (List.filter_congr ?_)
  intro a ha
  simp only [List.any_cons, List.any_nil, Bool.or_false]
  rw [no_parent_points_at_childless_total db c hc hrole huniq hroles hinv hnoag a ha]
  simp

/-- C8 witness: a lone total account sees exactly itself. -/
theorem c8_total_empty_agency_scope_witness :
    get_accounts_visible c8_caller [c8_total] =
      .ok ([c8_total].filter (fun a => a.user_id == c8_total.user_id)) :=
  c8_total_empty_agency_scope c8_caller [c8_total] c8_total (by decide) rfl rfl rfl
    (by decide) (by decide) (by decide) (by decide)

/-- Extending the directory does not invalidate the parent/role
compatibility: the witness for the parent stays present. -/
theorem role_parent_ok_append (db l2 : List Account) (a : Account)
    (h : role_parent_ok db a = true) : role_parent_ok (db ++ l2) a = true := by
  unfold role_parent_ok at h ⊢
  split_ifs at h ⊢
  · exact h
  · revert h
    cases a.parent_user_id with
    | none => intro _; simp
    | some q =>
      intro h
      simp only [List.any_append] at h ⊢
      rw [h]
      simp
  · revert h
    cases a.parent_user_id with
    | none => intro _; simp
    | some q =>
      intro h
      simp only [List.any_append] at h ⊢
      rw [h]
      simp
  · rfl

/-- Appending one compatible row preserves the hierarchy invariant. -/
theorem hierarchy_invariant_append_one (db : List Account) (a : Account)
    (h : hierarchy_invariant db = true)
    (ha : role_parent_ok (db ++ [a]) a = true) :
    hierarchy_invariant (db ++ [a]) = true := by
  rw [hierarchy_invariant, List.all_eq_true]
  intro x hx
  rw [List.mem_append] at hx
  rcases hx with hx | hx
  · exact role_parent_ok_append db [a] x ((List.all_eq_true.mp h) x hx)
  · rw [List.mem_singleton] at hx
    rw [hx]
    exact ha

/-- A rewrite of every row that keeps user_id, role and parent_user_id
unchanged preserves the hierarchy invariant. -/
theorem hierarchy_invariant_map (db : List Account) (f : Account → Account)
    (hf : ∀ a ∈ db, (f a).user_id = a.user_id ∧ (f a).role = a.role ∧
      (f a).parent_user_id = a.parent_user_id)
    (h : hierarchy_invariant db = true) : hierarchy_invariant (db.map f) = true := by
  rw [hierarchy_invariant, List.all_eq_true]
  intro x hx
  rw [List.mem_map] at hx
  obtain ⟨a, ha, rfl⟩ := hx
  have hrpo : role_parent_ok db a = true := (List.all_eq_true.mp h) a ha
  unfold role_parent_ok at hrpo ⊢
  rw [(hf a ha).2.1, (hf a ha).2.2]
  split_ifs at hrpo ⊢
  · exact hrpo
  · revert hrpo
    cases a.parent_user_id with
    | none => intro _; simp
    | some q =>
      intro hrpo
      simp only [List.any_eq_true] at hrpo ⊢
      obtain ⟨b, hb, hbp⟩ := hrpo
      refine ⟨f b, List.mem_map_of_mem f hb, ?_⟩
      rw [Bool.and_eq_true, beq_iff_eq, beq_iff_eq] at hbp ⊢
      rw [(hf b hb).1, (hf b hb).2.1]
      exact hbp
  · revert hrpo
    cases a.parent_user_id with
    | none => intro _; simp
    | some q =>
      intro hrpo
      simp only [List.any_eq_true] at hrpo ⊢
      obtain ⟨b, hb, hbp⟩ := hrpo
      refine ⟨f b, List.mem_map_of_mem f hb, ?_⟩
      rw [Bool.and_eq_true, beq_iff_eq, beq_iff_eq] at hbp ⊢
      rw [(hf b hb).1, (hf b hb).2.1]
      exact hbp
  · rfl

/-- A falsy optional id is None or 0. -/
theorem truthyNat_eq_false (fp : Option Nat) (h : truthyNat fp = false) :
    fp = none ∨ fp = some 0 := by
  cases fp with
  | none => exact Or.inl rfl
  | some n =>
    right
    unfold truthyNat at h
    simp at h
    rw [h]

/-- When existing ids are nonzero and the requested parent is not the
integer 0, the auto-assigned final parent is never some 0. -/
theorem final_parent_of_ne_zero (current : Identity) (actual : Account)
    (p : AccountCreate) (hnz : actual.user_id ≠ 0)
    (hp0 : p.parent_user_id ≠ some 0) :
    final_parent_of current actual p ≠ some 0 := by
  unfold final_parent_of
  split_ifs <;> first | exact hp0 | simp [hnz]

/-- The account update never touches user_id; when the request carries
no truthy role value it also leaves role and parent_user_id unchanged. -/
theorem apply_account_update_fields (p : AccountUpdate) (a : Account)
    (hrole : truthyStr p.role = false) :
    (apply_account_update p a).user_id = a.user_id ∧
    (apply_account_update p a).role = a.role ∧
    (apply_account_update p a).parent_user_id = a.parent_user_id := by
  unfold apply_account_update
  rw [hrole]
  cases hpw : truthyStr p.password <;>
    cases p.affiliation <;> cases p.memo <;> cases p.is_active <;> simp

/-- The parent validation plus insertion step preserves the hierarchy
invariant, provided the requested role is one of the three hierarchy
roles and the final parent is not the unvalidated falsy id some 0. -/
theorem validate_and_insert_preserves (db : List Account) (p : AccountCreate)
    (fp : Option Nat) (db2 : List Account) (newA : Account)
    (hroles3 : p.role = "total" ∨ p.role = "agency" ∨ p.role = "advertiser")
    (hfp0 : fp ≠ some 0)
    (hinv : hierarchy_invariant db = true)
    (hok : validate_and_insert db p fp = .ok (db2, newA)) :
    hierarchy_invariant db2 = true := by
  unfold validate_and_insert at hok
  rcases hroles3 with hr | hr | hr
  · -- role total: validation forbids a truthy parent, so fp is falsy
    rw [hr] at hok
    cases htr : truthyNat fp with
    | true =>
      simp [htr] at hok
    | false =>
      simp only [htr, Bool.and_false, Bool.false_eq_true, if_false] at hok
      rw [Except.ok.injEq, Prod.mk.injEq] at hok
      obtain ⟨rfl, rfl⟩ := hok
      rcases truthyNat_eq_false fp htr with hfp | hfp
      · apply hierarchy_invariant_append_one db _ hinv
        unfold role_parent_ok created_account
        simp [hr, hfp]
      · exact absurd hfp hfp0
  · -- role agency
    rw [hr] at hok
    cases htr : truthyNat fp with
    | false =>
      simp only [htr, Bool.and_false, Bool.false_eq_true, if_false] at hok
      rw [Except.ok.injEq, Prod.mk.injEq] at hok
      obtain ⟨rfl, rfl⟩ := hok
      rcases truthyNat_eq_false fp htr with hfp | hfp
      · apply hierarchy_invariant_append_one db _ hinv
        unfold role_parent_ok created_account
        simp [hr, hfp]
      · exact absurd hfp hfp0
    | true =>
      obtain ⟨k, hfp⟩ : ∃ k, fp = some k := by
        cases fp with
        | none => exact absurd htr (by simp [truthyNat])
        | some k => exact ⟨k, rfl⟩
      subst hfp
      rw [if_pos (by rw [htr]; rfl)] at hok
      simp only [Option.getD_some] at hok
      cases hfind2 : find_by_user_id db k with
      | none => rw [hfind2] at hok; exact Except.noConfusion hok
      | some parent =>
        rw [hfind2] at hok
        dsimp only at hok
        cases hpr : parent.role != "total" with
        | true => rw [if_pos hpr] at hok; exact Except.noConfusion hok
        | false =>
          rw [if_neg (by simp [hpr])] at hok
          rw [Except.ok.injEq, Prod.mk.injEq] at hok
          obtain ⟨rfl, rfl⟩ := hok
          apply hierarchy_invariant_append_one db _ hinv
          unfold role_parent_ok created_account
          simp only [hr, show ("agency" == "total") = false from rfl,
            show ("agency" == "agency") = true from rfl, Bool.false_eq_true,
            if_false, if_true]
          rw [List.any_eq_true]
          refine ⟨parent, List.mem_append_left _ (List.mem_of_find?_eq_some hfind2), ?_⟩
          rw [Bool.and_eq_true, beq_iff_eq, beq_iff_eq]
          exact ⟨by simpa using List.find?_some hfind2, by simpa using hpr⟩
  · -- role advertiser
    rw [hr] at hok
    cases htr : truthyNat fp with
    | false =>
      simp only [htr, Bool.and_false, Bool.false_eq_true, if_false] at hok
      rw [Except.ok.injEq, Prod.mk.injEq] at hok
      obtain ⟨rfl, rfl⟩ := hok
      rcases truthyNat_eq_false fp htr with hfp | hfp
      · apply hierarchy_invariant_append_one db _ hinv
        unfold role_parent_ok created_account
        simp [hr, hfp]
      · exact absurd hfp hfp0
    | true =>
      obtain ⟨k, hfp⟩ : ∃ k, fp = some k := by
        cases fp with
        | none => exact absurd htr (by simp [truthyNat])
        | some k => exact ⟨k, rfl⟩
      subst hfp
      rw [if_neg (by rw [htr]; simp)] at hok
      rw [if_pos (by rw [htr]; rfl)] at hok
      simp only [Option.getD_some] at hok
      cases hfind2 : find_by_user_id db k with
      | none => rw [hfind2] at hok; exact Except.noConfusion hok
      | some parent =>
        rw [hfind2] at hok
        dsimp only at hok
        cases hpr : parent.role != "agency" with
        | true => rw [if_pos hpr] at hok; exact Except.noConfusion hok
        | false =>
          rw [if_neg (by simp [hpr])] at hok
          rw [Except.ok.injEq, Prod.mk.injEq] at hok
          obtain ⟨rfl, rfl⟩ := hok
          apply hierarchy_invariant_append_one db _ hinv
          unfold role_parent_ok created_account
          simp only [hr, show ("advertiser" == "total") = false from rfl,
            show ("advertiser" == "agency") = false from rfl,
            show ("advertiser" == "advertiser") = true from rfl, Bool.false_eq_true,
            if_false, if_true]
          rw [List.any_eq_true]
          refine ⟨parent, List.mem_append_left _ (List.mem_of_find?_eq_some hfind2), ?_⟩
          rw [Bool.and_eq_true, beq_iff_eq, beq_iff_eq]
          exact ⟨by simpa using List.find?_some hfind2, by simpa using hpr⟩

/-- Account creation preserves the hierarchy invariant when existing ids
are nonzero and the requested parent is not the unvalidated falsy id 0. -/
theorem create_account_preserves (nowSec : Nat) (current : Identity)
    (db : List Account) (p : AccountCreate) (db2 : List Account) (newA : Account)
    (hids : ∀ a ∈ db, a.user_id ≠ 0)
    (hp0 : p.parent_user_id ≠ some 0)
    (hinv : hierarchy_invariant db = true)
    (hok : create_account nowSec current db p = .ok (db2, newA)) :
    hierarchy_invariant db2 = true := by
  unfold create_account at hok
  cases hg : check_edit_time_allowed (some current.username) (some current.role) nowSec with
  | some e => rw [hg] at hok; exact Except.noConfusion hok
  | none =>
  rw [hg] at hok
  dsimp only at hok
  cases hdup : (find_by_username db p.username).isSome with
  | true => rw [if_pos hdup] at hok; exact Except.noConfusion hok
  | false =>
  rw [if_neg (by simp [hdup])] at hok
  cases hcont : ["total", "agency", "advertiser"].contains p.role with
  | false => rw [if_pos (by rw [hcont]; rfl)] at hok; exact Except.noConfusion hok
  | true =>
  rw [if_neg (by rw [hcont]; simp)] at hok
  cases hfind : find_by_username db current.username with
  | none => rw [hfind] at hok; exact Except.noConfusion hok
  | some actual =>
  rw [hfind] at hok
  dsimp only at hok
  cases hstale : actual.role != current.role with
  | true => rw [if_pos hstale] at hok; exact Except.noConfusion hok
  | false =>
  rw [if_neg (by simp [hstale])] at hok
  have hroles3 : p.role = "total" ∨ p.role = "agency" ∨ p.role = "advertiser" := by
    simpa using hcont
  have hmem : actual ∈ db := List.mem_of_find?_eq_some hfind
  exact validate_and_insert_preserves db p (final_parent_of current actual p) db2 newA
    hroles3 (final_parent_of_ne_zero current actual p (hids actual hmem) hp0) hinv hok

/-- An account update carrying no truthy role value preserves the
hierarchy invariant: it only rewrites password hash, affiliation, memo
and activation. -/
theorem update_account_preserves (nowSec : Nat) (current : Identity)
    (db : List Account) (uid : Nat) (p : AccountUpdate) (db2 : List Account)
    (hrole : truthyStr p.role = false)
    (hinv : hierarchy_invariant db = true)
    (hok : update_account nowSec current db uid p = .ok db2) :
    hierarchy_invariant db2 = true := by
  unfold update_account at hok
  cases hg : check_edit_time_allowed (some current.username) (some current.role) nowSec with
  | some e => rw [hg] at hok; exact Except.noConfusion hok
  | none =>
  rw [hg] at hok
  dsimp only at hok
  cases hfind : find_by_user_id db uid with
  | none => rw [hfind] at hok; exact Except.noConfusion hok
  | some user0 =>
  rw [hfind] at hok
  dsimp only at hok
  rw [if_neg (by simp [hrole])] at hok
  rw [Except.ok.injEq] at hok
  rw [← hok]
  apply hierarchy_invariant_map db _ ?_ hinv
  intro a _
  dsimp only
  cases hu : a.user_id == uid with
  | false => simp
  | true =>
    simp only [if_true]
    exact apply_account_update_fields p a hrole

/-- The soft delete preserves the hierarchy invariant: it only clears
is_active. -/
theorem delete_accounts_preserves (nowSec : Nat) (current : Identity)
    (db : List Account) (ids : List Nat) (db2 : List Account) (cnt : Nat)
    (nf : List Nat)
    (hinv : hierarchy_invariant db = true)
    (hok : delete_accounts nowSec current db ids = .ok (db2, cnt, nf)) :
    hierarchy_invariant db2 = true := by
  unfold delete_accounts at hok
  cases hg : check_edit_time_allowed (some current.username) (some current.role) nowSec with
  | some e => rw [hg] at hok; exact Except.noConfusion hok
  | none =>
  rw [hg] at hok
  dsimp only at hok
  rw [Except.ok.injEq] at hok
  have hfold : ∀ (uids : List Nat) (st : List Account × Nat × List Nat),
      hierarchy_invariant st.1 = true →
      hierarchy_invariant (uids.foldl delete_one_account st).1 = true := by
    intro uids
    induction uids with
    | nil => intro st h; exact h
    | cons u us ih =>
      intro st h
      rw [List.foldl_cons]
      apply ih
      obtain ⟨cur, cnt2, nf2⟩ := st
      dsimp only at h
      unfold delete_one_account
      dsimp only
      cases hf2 : find_by_user_id cur u with
      | none =>
        exact h
      | some x =>
        dsimp only
        apply hierarchy_invariant_map cur _ ?_ h
        intro a _
        cases a.user_id == u with
        | false => simp
        | true => simp
  have := hfold ids (db, 0, []) hinv
  rw [hok] at this
  exact this

/-- C3 counterexample: a role-changing account update is applied without
re-validating the hierarchy: turning the agency child of a total into an
advertiser leaves an advertiser whose parent is a total, so the
invariant fails after the update although it held before. -/
theorem c3_invariant_counterexample :
    hierarchy_invariant c3_db = true ∧
    update_account 0 ⟨1, "t1", "total"⟩ c3_db 2 { role := some "advertiser" } =
      .ok c3_db_bad ∧
    hierarchy_invariant c3_db_bad = false :=
  ⟨rfl, rfl, rfl⟩

/-- C3 amended: creation (for nonzero ids and a parent other than the
falsy 0), role-free updates, and soft deletion preserve the parent/role
compatibility invariant; an update that changes role is applied without
re-validation and can break it. -/
theorem c3_invariant_amended :
    (∀ (nowSec : Nat) (current : Identity) (db : List Account) (p : AccountCreate)
      (db2 : List Account) (newA : Account),
      (∀ a ∈ db, a.user_id ≠ 0) → p.parent_user_id ≠ some 0 →
      hierarchy_invariant db = true →
      create_account nowSec current db p = .ok (db2, newA) →
      hierarchy_invariant db2 = true) ∧
    (∀ (nowSec : Nat) (current : Identity) (db : List Account) (uid : Nat)
      (p : AccountUpdate) (db2 : List Account),
      truthyStr p.role = false →
      hierarchy_invariant db = true →
      update_account nowSec current db uid p = .ok db2 →
      hierarchy_invariant db2 = true) ∧
    (∀ (nowSec : Nat) (current : Identity) (db : List Account) (ids : List Nat)
      (db2 : List Account) (cnt : Nat) (nf : List Nat),
      hierarchy_invariant db = true →
      delete_accounts nowSec current db ids = .ok (db2, cnt, nf) →
      hierarchy_invariant db2 = true) :=
  ⟨fun nowSec current db p db2 newA hids hp0 hinv hok =>
      create_account_preserves nowSec current db p db2 newA hids hp0 hinv hok,
   fun nowSec current db uid p db2 hrole hinv hok =>
      update_account_preserves nowSec current db uid p db2 hrole hinv hok,
   fun nowSec current db ids db2 cnt nf hinv hok =>
      delete_accounts_preserves nowSec current db ids db2 cnt nf hinv hok⟩

/-- C3 amended witness: concrete create, memo-only update and delete,
each preserving the invariant on the two-account directory. -/
theorem c3_invariant_amended_witness :
    hierarchy_invariant (c7_db ++
      [created_account c7_db { username := "wa", password := "pw", role := "agency" }
        (some 1)]) = true ∧
    hierarchy_invariant [c3_total, { c3_agency with memo := some "x" }] = true ∧
    hierarchy_invariant [c3_total, { c3_agency with is_active := false }] = true :=
  ⟨c3_invariant_amended.1 0 c7_caller c7_db
      { username := "wa", password := "pw", role := "agency" } _ _
      (by decide) (by decide) (by decide) rfl,
   c3_invariant_amended.2.1 0 ⟨1, "t1", "total"⟩ c3_db 2 { memo := some "x" } _
      rfl (by decide) rfl,
   c3_invariant_amended.2.2 0 ⟨1, "t1", "total"⟩ c3_db [2] _ 1 []
      (by decide) rfl⟩

end MonterBackend
